/- Verification of the FlowLang interpreter core against its specification.

   Shallow embedding of the relevant parts of the source:
   - src/types/mod.rs        (Value, EssenceType, is_truthy, to_string)
   - src/error/mod.rs        (FlowError, error_type_name, Display impl)
   - src/interpreter/environment.rs (Environment)
   - src/interpreter/mod.rs  (evaluator fragment: statements and expressions
     needed by the claims, apply_binary_op, values_equal, execute_import)
   - src/optimizer/constant_folder.rs (try_fold_binary, fold_expression)

   Modelling conventions:
   - Rust f64 numbers are modelled by the exact rationals; the claims under
     test depend only on comparison with zero and on exact arithmetic, never
     on rounding, infinities or NaN.  The `%` operator is omitted from the
     embedded operator set because `x % 0.0` is NaN in f64, which has no
     rational counterpart, and no claim concerns `%`.
   - Rust HashMap scopes are modelled by association lists with
     replace-on-insert, which preserves the observable get/insert semantics.
   - The evaluator is a fuel-indexed recursion; every recursive call consumes
     one unit of fuel and exhaustion yields a marker error that the claims'
     theorems always avoid by supplying enough fuel.
   - `&mut self.env` threading is explicit: statements and expressions return
     the updated environment even on the error path, as the Rust interpreter
     keeps all mutations made before an error.
-/
import Mathlib

namespace FlowLang

/-! ## Type tags (src/types/mod.rs, `EssenceType`) -/

inductive EssenceType where
  | ember
  | silk
  | pulse
  | flux
  | hollow
  | constellation (inner : EssenceType)
  | relic (key : EssenceType) (value : EssenceType)
  | spell
deriving Repr, DecidableEq

/-- The `Display` impl for `EssenceType`. -/
def EssenceType.displayStr : EssenceType → String
  | .ember => "Ember"
  | .silk => "Silk"
  | .pulse => "Pulse"
  | .flux => "Flux"
  | .hollow => "Hollow"
  | .constellation inner => "Constellation<" ++ inner.displayStr ++ ">"
  | .relic k v => "Relic<" ++ k.displayStr ++ ", " ++ v.displayStr ++ ">"
  | .spell => "Spell"

/-! ## Operators (src/parser/ast.rs) -/

inductive BinaryOp where
  | add
  | subtract
  | multiply
  | divide
  | isEqual
  | notEqual
  | greater
  | less
  | greaterEq
  | lessEq
  | both
  | either
deriving Repr, DecidableEq

/-- The derived `Debug` rendering of `BinaryOp` (used in the type-error
message of `apply_binary_op`). -/
def BinaryOp.debugStr : BinaryOp → String
  | .add => "Add"
  | .subtract => "Subtract"
  | .multiply => "Multiply"
  | .divide => "Divide"
  | .isEqual => "IsEqual"
  | .notEqual => "NotEqual"
  | .greater => "Greater"
  | .less => "Less"
  | .greaterEq => "GreaterEq"
  | .lessEq => "LessEq"
  | .both => "Both"
  | .either => "Either"

inductive UnaryOp where
  | negate
  | minus
deriving Repr, DecidableEq

/-! ## Expressions (src/parser/ast.rs, `Expression`), restricted to the
constructs the claims exercise.  The inline-Spell form is the
expression-bodied one (`InlineSpellBody::Expression`). -/

inductive Expression where
  | number (n : ℚ)
  | string (s : String)
  | boolean (b : Bool)
  | identifier (name : String)
  | binary (left : Expression) (operator : BinaryOp) (right : Expression)
  | unary (operator : UnaryOp) (operand : Expression)
  | array (elements : List Expression)
  | methodCall (object : Expression) (method : String) (arguments : List Expression)
  | inlineSpell (params : List String) (paramTypes : List (Option EssenceType))
      (returnType : Option EssenceType) (body : Expression) (line : Nat)
deriving Repr

/-! ## Statements (src/parser/ast.rs, `Statement`), restricted likewise.
A rescue clause `(error_type, binding, retry_count, body)` is inlined as a
product so that `Statement` stays a single nested inductive. -/

inductive Statement where
  | letDecl (name : String) (tyAnn : Option EssenceType) (value : Expression)
      (isExported : Bool) (line : Nat)
  | sealDecl (name : String) (tyAnn : Option EssenceType) (value : Expression)
      (isExported : Bool) (line : Nat)
  | assignment (name : String) (value : Expression) (line : Nat)
  | returnStmt (value : Option Expression) (line : Nat)
  | stance (condition : Expression) (thenBranch : List Statement)
      (shiftBranches : List (Expression × List Statement))
      (abandonBranch : Option (List Statement)) (line : Nat)
  | exprStmt (expr : Expression) (line : Nat)
  | attempt (body : List Statement)
      (rescueClauses : List (Option String × Option String × Option Nat × List Statement))
      (finallyBlock : Option (List Statement)) (line : Nat)
  | ward (body : List Statement) (line : Nat)
  | breakSeal (line : Nat)
  | fractureSeal (line : Nat)
  | rupture (errorType : String) (message : Expression) (line : Nat)
  | panicStmt (message : Expression) (line : Nat)
deriving Repr

/-- A rescue clause of an `attempt` statement: error type filter, binding
name, retry count, body (src/parser/ast.rs, `RescueClause`). -/
abbrev RescueClause := Option String × Option String × Option Nat × List Statement

/-! ## Values (src/types/mod.rs, `Value`).  Native and async-native
functions are opaque `Arc` closures in the source; they are modelled by an
opaque index whose meaning the evaluator takes as a parameter. -/

inductive Value where
  | number (n : ℚ)
  | string (s : String)
  | boolean (b : Bool)
  | array (elements : List Value)
  | relic (entries : List (String × Value))
  | null
  | function (params : List String) (paramTypes : List (Option EssenceType))
      (returnType : Option EssenceType) (body : List Statement) (isAsync : Bool)
  | nativeFunction (id : Nat)
  | asyncNativeFunction (id : Nat)
  | handle (id : Nat)
deriving Repr

/-- `Value::type_name`. -/
def Value.typeName : Value → String
  | .number _ => "Ember"
  | .string _ => "Silk"
  | .boolean _ => "Pulse"
  | .array _ => "Constellation"
  | .relic _ => "Relic"
  | .null => "Hollow"
  | .function _ _ _ _ _ => "Spell"
  | .nativeFunction _ => "Spell"
  | .asyncNativeFunction _ => "Spell"
  | .handle _ => "Handle"

/-- `Value::is_truthy` (src/types/mod.rs lines 141-152). -/
def Value.isTruthy : Value → Bool
  | .boolean b => b
  | .null => false
  | .number n => decide (n ≠ 0)
  | .string s => !s.isEmpty
  | .array a => !a.isEmpty
  | .relic m => !m.isEmpty
  | .function _ _ _ _ _ => true
  | .nativeFunction _ => true
  | .asyncNativeFunction _ => true
  | .handle id => decide (0 < id)

/-- Rendering of a number per `Value::to_string`: integral values print
without a fractional part. -/
def numToStr (n : ℚ) : String :=
  if n.den = 1 then toString n.num else toString n

mutual

/-- `Value::to_string` (src/types/mod.rs lines 154-183).  Relic entries are
sorted for deterministic output, as in the source. -/
def Value.toStr : Value → String
  | .number n => numToStr n
  | .string s => s
  | .boolean b => if b then "true" else "false"
  | .array arr => "[" ++ String.intercalate ", " (toStrList arr) ++ "]"
  | .relic map =>
      let entries := (entryStrList map).mergeSort (fun a b => decide (a ≤ b))
      "\x7b " ++ String.intercalate ", " entries ++ " \x7d"
  | .null => "null"
  | .function params _ _ _ _ => "Spell(" ++ String.intercalate ", " params ++ ")"
  | .nativeFunction _ => "Spell(native)"
  | .asyncNativeFunction _ => "Spell(native)"
  | .handle id => "Handle(#" ++ toString id ++ ")"

def toStrList : List Value → List String
  | [] => []
  | v :: rest => v.toStr :: toStrList rest

def entryStrList : List (String × Value) → List String
  | [] => []
  | (k, v) :: rest => (k ++ ": " ++ v.toStr) :: entryStrList rest

end

/-! ## Errors (src/error/mod.rs, `FlowError`). -/

inductive FlowError where
  | syntaxErr (message : String) (line : Nat) (column : Nat)
  | typeErr (message : String) (line : Nat) (column : Nat)
  | runtime (message : String) (line : Nat) (column : Nat)
  | undefined (message : String) (line : Nat) (column : Nat)
  | outOfRange (message : String) (line : Nat) (column : Nat)
  | divisionByZero (message : String) (line : Nat) (column : Nat)
  | rift (message : String) (line : Nat) (column : Nat)
  | glitch (message : String) (line : Nat) (column : Nat)
  | voidTear (message : String) (line : Nat) (column : Nat)
  | spirit (message : String) (line : Nat) (column : Nat)
  | panic (message : String) (line : Nat) (column : Nat)
  | wound (message : String) (line : Nat) (column : Nat)
  | breakSig (line : Nat) (column : Nat)
  | continueSig (line : Nat) (column : Nat)
deriving Repr, DecidableEq

/-- The fixed message of `FlowError::division_by_zero`. -/
def dbzMsg : String := "STOP! To divide by the Hollow is to tear reality apart!"

/-- `FlowError::division_by_zero(line, column)`. -/
def FlowError.mkDivisionByZero (line column : Nat) : FlowError :=
  .divisionByZero dbzMsg line column

/-- `FlowError::error_type_name`. -/
def FlowError.errorTypeName : FlowError → String
  | .syntaxErr _ _ _ => "Syntax"
  | .typeErr _ _ _ => "Type"
  | .runtime _ _ _ => "Runtime"
  | .undefined _ _ _ => "Undefined"
  | .outOfRange _ _ _ => "OutOfRange"
  | .divisionByZero _ _ _ => "DivisionByZero"
  | .rift _ _ _ => "Rift"
  | .glitch _ _ _ => "Glitch"
  | .voidTear _ _ _ => "VoidTear"
  | .spirit _ _ _ => "Spirit"
  | .panic _ _ _ => "Panic"
  | .wound _ _ _ => "Wound"
  | .breakSig _ _ => "Break"
  | .continueSig _ _ => "Continue"

/-- The `Display` impl for `FlowError` (src/error/mod.rs lines 164-211).
This is what `err.to_string()` produces. -/
def FlowError.displayString : FlowError → String
  | .syntaxErr m l c => "Syntax Error at " ++ toString l ++ ":" ++ toString c ++ " - " ++ m
  | .typeErr m l c => "Type Error at " ++ toString l ++ ":" ++ toString c ++ " - " ++ m
  | .runtime m l c => "Runtime Error at " ++ toString l ++ ":" ++ toString c ++ " - " ++ m
  | .undefined m l c => "Undefined Error at " ++ toString l ++ ":" ++ toString c ++ " - " ++ m
  | .outOfRange m l c => "Out of Range Error at " ++ toString l ++ ":" ++ toString c ++ " - " ++ m
  | .divisionByZero m l c => "Division by Zero at " ++ toString l ++ ":" ++ toString c ++ " - " ++ m
  | .rift m l c => "🌐 RIFT at " ++ toString l ++ ":" ++ toString c ++ " - " ++ m
  | .glitch m l c => "⚡ GLITCH at " ++ toString l ++ ":" ++ toString c ++ " - " ++ m
  | .voidTear m l c => "🕳️  VOID TEAR at " ++ toString l ++ ":" ++ toString c ++ " - " ++ m
  | .spirit m l c => "👻 SPIRIT at " ++ toString l ++ ":" ++ toString c ++ " - " ++ m
  | .panic m l c => "💀 PANIC at " ++ toString l ++ ":" ++ toString c ++ " - " ++ m
  | .wound m l c => "🩹 WOUND at " ++ toString l ++ ":" ++ toString c ++ " - " ++ m
  | .breakSig l c => "Break at " ++ toString l ++ ":" ++ toString c
  | .continueSig l c => "Continue at " ++ toString l ++ ":" ++ toString c

/-! ## Scopes and environments (src/interpreter/environment.rs). -/

/-- One binding: (value, is_mutable, is_exported). -/
abbrev Binding := Value × Bool × Bool

/-- One lexical scope, a HashMap in the source, modelled by an association
list whose `insert` replaces an existing key. -/
abbrev Scope := List (String × Binding)

/-- HashMap get. -/
def scopeGet (sc : Scope) (name : String) : Option Binding :=
  match sc with
  | [] => none
  | (k, b) :: rest => if k = name then some b else scopeGet rest name

/-- HashMap insert (replace an existing key, else add). -/
def scopeInsert (sc : Scope) (name : String) (b : Binding) : Scope :=
  match sc with
  | [] => [(name, b)]
  | (k, old) :: rest =>
      if k = name then (name, b) :: rest else (k, old) :: scopeInsert rest name b

/-- The scope stack.  The head of `scopes` is the innermost scope (the last
element of the Rust `Vec`); the last element is the module global scope. -/
structure Environment where
  scopes : List Scope
deriving Repr

/-- `Environment::new`. -/
def Environment.new : Environment := ⟨[[]]⟩

/-- `Environment::push_scope`. -/
def Environment.pushScope (env : Environment) : Environment :=
  ⟨[] :: env.scopes⟩

/-- `Environment::pop_scope` (never pops the global scope). -/
def Environment.popScope (env : Environment) : Environment :=
  match env.scopes with
  | [] => env
  | [sc] => ⟨[sc]⟩
  | _ :: rest => ⟨rest⟩

/-- `Environment::define_with_export`: insert into the innermost scope. -/
def Environment.defineWithExport (env : Environment) (name : String) (value : Value)
    (isMutable : Bool) (isExported : Bool) : Environment :=
  match env.scopes with
  | [] => env
  | sc :: rest => ⟨scopeInsert sc name (value, isMutable, isExported) :: rest⟩

/-- `Environment::define` (not exported unless explicitly marked). -/
def Environment.define (env : Environment) (name : String) (value : Value)
    (isMutable : Bool) : Environment :=
  env.defineWithExport name value isMutable false

/-- `Environment::get`: walk from the innermost scope outward. -/
def envGet (scopes : List Scope) (name : String) : Option Value :=
  match scopes with
  | [] => none
  | sc :: rest =>
      match scopeGet sc name with
      | some (v, _, _) => some v
      | none => envGet rest name

def Environment.get (env : Environment) (name : String) : Option Value :=
  envGet env.scopes name

/-- The message of the `set` error on an immutable binding. -/
def sealedEssenceMsg (name : String) : String :=
  "Cannot reassign sealed essence '" ++ name ++ "'! It is bound eternally."

/-- The message of the `set` error on an unbound name (also the message of
an undefined identifier in `evaluate_expression`). -/
def undefinedNameMsg (name : String) : String :=
  "You speak the name '" ++ name ++ "' but no essence responds!"

/-- `Environment::set` walk: update the first scope holding the name;
fail without updating when that binding is immutable. -/
def envSet (scopes : List Scope) (name : String) (value : Value) :
    Except FlowError (List Scope) :=
  match scopes with
  | [] => .error (.undefined (undefinedNameMsg name) 0 0)
  | sc :: rest =>
      match scopeGet sc name with
      | some (_, isMutable, isExported) =>
          if isMutable then
            .ok (scopeInsert sc name (value, isMutable, isExported) :: rest)
          else
            .error (.runtime (sealedEssenceMsg name) 0 0)
      | none =>
          match envSet rest name value with
          | .ok rest' => .ok (sc :: rest')
          | .error e => .error e

def Environment.set (env : Environment) (name : String) (value : Value) :
    Except FlowError Environment :=
  match envSet env.scopes name value with
  | .ok scopes' => .ok ⟨scopes'⟩
  | .error e => .error e

/-- `Environment::get_all_public`: the exported bindings of the global
scope (the last scope of the stack). -/
def Environment.getAllPublic (env : Environment) : List (String × Value) :=
  match env.scopes.getLast? with
  | none => []
  | some globalScope => (globalScope.filter (fun p => p.2.2.2)).map (fun p => (p.1, p.2.1))

/-- The binding that the `get`/`set` walk finds first for a name: the
entry of the innermost scope that contains it.  (Proof-side helper used to
state hypotheses; not a separate source function.) -/
def lookupScopes (scopes : List Scope) (name : String) : Option Binding :=
  match scopes with
  | [] => none
  | sc :: rest =>
      match scopeGet sc name with
      | some b => some b
      | none => lookupScopes rest name

def lookupBinding (env : Environment) (name : String) : Option Binding :=
  lookupScopes env.scopes name

/-! ## Pure evaluator helpers (src/interpreter/mod.rs). -/

/-- `Interpreter::values_equal` (lines 1834-1842): by-value equality on
number, string, bool, null; every other combination is unequal. -/
def valuesEqual (a b : Value) : Bool :=
  match a, b with
  | .number x, .number y => decide (x = y)
  | .string x, .string y => decide (x = y)
  | .boolean x, .boolean y => decide (x = y)
  | .null, .null => true
  | _, _ => false

mutual

/-- `Interpreter::check_type_compatibility` (lines 93-124). -/
def checkTypeCompat : Value → EssenceType → Bool
  | .number _, .ember => true
  | .string _, .silk => true
  | .boolean _, .pulse => true
  | _, .flux => true
  | .null, .hollow => true
  | .array arr, .constellation innerType => checkTypeCompatList arr innerType
  | .relic map, .relic keyType valType =>
      if keyType = .silk then checkTypeCompatEntries map valType else false
  | .function _ _ _ _ _, .spell => true
  | .nativeFunction _, .spell => true
  | _, _ => false

/-- The element walk of the `Constellation` case. -/
def checkTypeCompatList : List Value → EssenceType → Bool
  | [], _ => true
  | item :: rest, t => checkTypeCompat item t && checkTypeCompatList rest t

/-- The value walk of the `Relic` case. -/
def checkTypeCompatEntries : List (String × Value) → EssenceType → Bool
  | [], _ => true
  | (_, v) :: rest, t => checkTypeCompat v t && checkTypeCompatEntries rest t

end

/-- `Interpreter::apply_binary_op` (lines 1781-1832).  The match arms are in
source order; `Modulo` is omitted (see the header note). -/
def applyBinaryOp (left : Value) (op : BinaryOp) (right : Value) : Except FlowError Value :=
  match left, op, right with
  | .number a, .add, .number b => .ok (.number (a + b))
  | .number a, .subtract, .number b => .ok (.number (a - b))
  | .number a, .multiply, .number b => .ok (.number (a * b))
  | .number a, .divide, .number b =>
      if b = 0 then .error (FlowError.mkDivisionByZero 0 0)
      else .ok (.number (a / b))
  | .string a, .add, .string b => .ok (.string (a ++ b))
  | .string a, .add, b => .ok (.string (a ++ b.toStr))
  | a, .add, .string b => .ok (.string (a.toStr ++ b))
  | .number a, .greater, .number b => .ok (.boolean (decide (b < a)))
  | .number a, .less, .number b => .ok (.boolean (decide (a < b)))
  | .number a, .greaterEq, .number b => .ok (.boolean (decide (b ≤ a)))
  | .number a, .lessEq, .number b => .ok (.boolean (decide (a ≤ b)))
  | a, .isEqual, b => .ok (.boolean (valuesEqual a b))
  | a, .notEqual, b => .ok (.boolean (!valuesEqual a b))
  | a, .both, b => .ok (.boolean (a.isTruthy && b.isTruthy))
  | a, .either, b => .ok (.boolean (a.isTruthy || b.isTruthy))
  | _, _, _ =>
      .error (.typeErr ("Cannot apply " ++ op.debugStr ++ " to " ++ left.typeName
        ++ " and " ++ right.typeName) 0 0)

/-- Project configuration: the evaluator reads only `type_required`. -/
structure Config where
  typeRequired : Bool

/-- Fixed context of an evaluation: the configuration and the meaning of the
opaque native / async-native callables. -/
structure Ctx where
  config : Config
  natives : Nat → List Value → Except FlowError Value
  anatives : Nat → List Value → Except FlowError Value

/-- A default context for concrete runs: non-strict mode, no natives. -/
def defCtx : Ctx :=
  ⟨⟨false⟩, fun _ _ => .error (.runtime "no native" 0 0),
    fun _ _ => .error (.runtime "no native" 0 0)⟩

/-- The marker error returned when the embedding's fuel runs out (an
artifact of the shallow embedding, not a source error). -/
def fuelErr : FlowError := .runtime "fuel exhausted" 0 0

/-- The message of a failed assignment statement (line 353). -/
def assignFailMsg (name : String) : String :=
  "Cannot assign to '" ++ name ++ "'. Variable may not exist or is sealed (use 'seal' for immutable, 'let' for mutable)."

/-- The rescue-clause scan (lines 780-786): the first clause whose
`error_type` is absent (catch-all) or equals the error's kind tag. -/
def findMatchingClause (clauses : List RescueClause) (errorType : String) :
    Option RescueClause :=
  match clauses with
  | [] => none
  | c :: rest =>
      match c.1 with
      | none => some c
      | some t => if t = errorType then some c else findMatchingClause rest errorType

/-- Positional parameter binding (`params.iter().zip(args.iter())`, each
defined mutable in the current innermost scope). -/
def bindParams (env : Environment) : List String → List Value → Environment
  | [], _ => env
  | _, [] => env
  | p :: ps, a :: as' => bindParams (env.define p a true) ps as'

/-- Rust `f64 as usize` on the slice indices: truncation, with negative
values saturating to 0. -/
def ratToUsize (q : ℚ) : Nat :=
  if q ≤ 0 then 0 else q.floor.toNat

/-- HashMap get on a Relic's entries. -/
def relicGet (entries : List (String × Value)) (key : String) : Option Value :=
  match entries with
  | [] => none
  | (k, v) :: rest => if k = key then some v else relicGet rest key

/-! ## The evaluator (src/interpreter/mod.rs, `execute_statement` /
`evaluate_expression`), as a fuel-indexed mutual recursion.  Each function
first consumes one unit of fuel; `fuelErr` marks exhaustion.  The updated
environment is returned on both the ok and the error path, mirroring the
in-place mutation of `self.env`. -/

mutual

/-- `Interpreter::evaluate_expression` on the embedded expression subset. -/
def evalExpr (ctx : Ctx) (fuel : Nat) (e : Expression) (env : Environment) :
    Environment × Except FlowError Value :=
  match fuel with
  | 0 => (env, .error fuelErr)
  | fuel + 1 =>
    match e with
    | .number n => (env, .ok (.number n))
    | .string s => (env, .ok (.string s))
    | .boolean b => (env, .ok (.boolean b))
    | .identifier name =>
        match env.get name with
        | some v => (env, .ok v)
        | none => (env, .error (.undefined (undefinedNameMsg name) 0 0))
    | .binary l op r =>
        match evalExpr ctx fuel l env with
        | (env1, .error err) => (env1, .error err)
        | (env1, .ok lv) =>
            match evalExpr ctx fuel r env1 with
            | (env2, .error err) => (env2, .error err)
            | (env2, .ok rv) => (env2, applyBinaryOp lv op rv)
    | .unary op operand =>
        match evalExpr ctx fuel operand env with
        | (env1, .error err) => (env1, .error err)
        | (env1, .ok v) =>
            match op with
            | .negate =>
                match v with
                | .boolean b => (env1, .ok (.boolean (!b)))
                | _ => (env1, .error (.typeErr "negate! can only be applied to Pulse essence!" 0 0))
            | .minus =>
                match v with
                | .number n => (env1, .ok (.number (-n)))
                | _ => (env1, .error (.typeErr "Minus can only be applied to Ember essence!" 0 0))
    | .array elements =>
        match evalExprList ctx fuel elements env with
        | (env1, .error err) => (env1, .error err)
        | (env1, .ok vs) => (env1, .ok (.array vs))
    | .methodCall obj method args =>
        match evalExpr ctx fuel obj env with
        | (env1, .error err) => (env1, .error err)
        | (env1, .ok objV) =>
            match evalExprList ctx fuel args env1 with
            | (env2, .error err) => (env2, .error err)
            | (env2, .ok argVs) =>
                match objV with
                | .array arr => arrayMethod ctx fuel arr method argVs env2
                | .relic entries => relicMethod ctx fuel entries method argVs env2
                | _ => (env2, .error (.typeErr ("Type " ++ objV.typeName ++ " has no methods") 0 0))
    | .inlineSpell params paramTypes returnType body _ =>
        (env, .ok (.function params paramTypes returnType [.returnStmt (some body) 0] false))

/-- The argument-evaluation loop of calls and method calls. -/
def evalExprList (ctx : Ctx) (fuel : Nat) (es : List Expression) (env : Environment) :
    Environment × Except FlowError (List Value) :=
  match fuel with
  | 0 => (env, .error fuelErr)
  | fuel + 1 =>
    match es with
    | [] => (env, .ok [])
    | e :: rest =>
        match evalExpr ctx fuel e env with
        | (env1, .error err) => (env1, .error err)
        | (env1, .ok v) =>
            match evalExprList ctx fuel rest env1 with
            | (env2, .error err) => (env2, .error err)
            | (env2, .ok vs) => (env2, .ok (v :: vs))

/-- `Interpreter::execute_statement` on the embedded statement subset.
`ok (some v)` models `Ok(Some(v))` (a `return`), `ok none` models
`Ok(None)`. -/
def evalStmt (ctx : Ctx) (fuel : Nat) (s : Statement) (env : Environment) :
    Environment × Except FlowError (Option Value) :=
  match fuel with
  | 0 => (env, .error fuelErr)
  | fuel + 1 =>
    match s with
    | .letDecl name tyAnn value isExported line =>
        match evalExpr ctx fuel value env with
        | (env1, .error err) => (env1, .error err)
        | (env1, .ok val) =>
            match tyAnn with
            | some expected =>
                if checkTypeCompat val expected then
                  (env1.defineWithExport name val true isExported, .ok none)
                else
                  (env1, .error (.typeErr ("Expected essence " ++ expected.displayStr
                    ++ ", but found " ++ val.typeName ++ "!") line 0))
            | none =>
                if ctx.config.typeRequired then
                  (env1, .error (.typeErr ("Type annotation required for variable '"
                    ++ name ++ "' in strict mode!") line 0))
                else
                  (env1.defineWithExport name val true isExported, .ok none)
    | .sealDecl name tyAnn value isExported line =>
        match evalExpr ctx fuel value env with
        | (env1, .error err) => (env1, .error err)
        | (env1, .ok val) =>
            match tyAnn with
            | some expected =>
                if checkTypeCompat val expected then
                  (env1.defineWithExport name val false isExported, .ok none)
                else
                  (env1, .error (.typeErr ("Expected essence " ++ expected.displayStr
                    ++ ", but found " ++ val.typeName ++ "!") line 0))
            | none =>
                if ctx.config.typeRequired then
                  (env1, .error (.typeErr ("Type annotation required for sealed variable '"
                    ++ name ++ "' in strict mode!") line 0))
                else
                  (env1.defineWithExport name val false isExported, .ok none)
    | .assignment name value line =>
        match evalExpr ctx fuel value env with
        | (env1, .error err) => (env1, .error err)
        | (env1, .ok val) =>
            match env1.set name val with
            | .ok env2 => (env2, .ok none)
            | .error _ => (env1, .error (.runtime (assignFailMsg name) line 0))
    | .returnStmt value _ =>
        match value with
        | some expr =>
            match evalExpr ctx fuel expr env with
            | (env1, .error err) => (env1, .error err)
            | (env1, .ok v) => (env1, .ok (some v))
        | none => (env, .ok (some .null))
    | .stance condition thenBranch shiftBranches abandonBranch _ =>
        match evalExpr ctx fuel condition env with
        | (env1, .error err) => (env1, .error err)
        | (env1, .ok condVal) =>
            if condVal.isTruthy then
              match execBlock ctx fuel thenBranch env1.pushScope with
              | (env2, .ok r) => (env2.popScope, .ok r)
              | (env2, .error err) => (env2, .error err)
            else
              execShifts ctx fuel shiftBranches abandonBranch env1
    | .exprStmt expr _ =>
        match evalExpr ctx fuel expr env with
        | (env1, .error err) => (env1, .error err)
        | (env1, .ok _) => (env1, .ok none)
    | .attempt body rescueClauses finallyBlock _ =>
        match execAttemptBody ctx fuel body none env with
        | (env1, .ok res) => attemptFinally ctx fuel finallyBlock env1 (.ok res)
        | (env1, .error err) =>
            match findMatchingClause rescueClauses err.errorTypeName with
            | none => attemptFinally ctx fuel finallyBlock env1 (.error err)
            | some (_, binding, retryCount, rescueBody) =>
                let env2 := match binding with
                  | some b => env1.define b (.string err.displayString) true
                  | none => env1
                match retryCount with
                | none =>
                    match execSeq ctx fuel rescueBody env2 with
                    | (env3, .error e2) => (env3, .error e2)
                    | (env3, .ok _) => attemptFinally ctx fuel finallyBlock env3 (.ok none)
                | some rc =>
                    match execRetryLoop ctx fuel (rc - 1) body rescueBody env2 with
                    | (env3, .error e2) => (env3, .error e2)
                    | (env3, .ok _) => attemptFinally ctx fuel finallyBlock env3 (.ok none)
    | .ward body _ => execWardBody ctx fuel body env
    | .breakSeal line => (env, .error (.breakSig line 0))
    | .fractureSeal line => (env, .error (.continueSig line 0))
    | .rupture errorType message line =>
        match evalExpr ctx fuel message env with
        | (env1, .error err) => (env1, .error err)
        | (env1, .ok msgVal) =>
            let msg := msgVal.toStr
            match errorType with
            | "Rift" => (env1, .error (.rift msg line 0))
            | "Glitch" => (env1, .error (.glitch msg line 0))
            | "VoidTear" => (env1, .error (.voidTear msg line 0))
            | "Spirit" => (env1, .error (.spirit msg line 0))
            | _ => (env1, .error (.runtime ("Unknown error type: " ++ errorType) line 0))
    | .panicStmt message line =>
        match evalExpr ctx fuel message env with
        | (env1, .error err) => (env1, .error err)
        | (env1, .ok msgVal) => (env1, .error (.panic msgVal.toStr line 0))

/-- A branch-body walk (stance branches): the first `Some` return value is
propagated after popping the scope at the call site; an error propagates
without the pop, as `?` skips `pop_scope` in the source. -/
def execBlock (ctx : Ctx) (fuel : Nat) (stmts : List Statement) (env : Environment) :
    Environment × Except FlowError (Option Value) :=
  match fuel with
  | 0 => (env, .error fuelErr)
  | fuel + 1 =>
    match stmts with
    | [] => (env, .ok none)
    | s :: rest =>
        match evalStmt ctx fuel s env with
        | (env1, .ok (some v)) => (env1, .ok (some v))
        | (env1, .ok none) => execBlock ctx fuel rest env1
        | (env1, .error err) => (env1, .error err)

/-- The shift-branch walk of a stance, falling through to the abandon
branch. -/
def execShifts (ctx : Ctx) (fuel : Nat)
    (shifts : List (Expression × List Statement))
    (abandonBranch : Option (List Statement)) (env : Environment) :
    Environment × Except FlowError (Option Value) :=
  match fuel with
  | 0 => (env, .error fuelErr)
  | fuel + 1 =>
    match shifts with
    | [] =>
        match abandonBranch with
        | none => (env, .ok none)
        | some body =>
            match execBlock ctx fuel body env.pushScope with
            | (env1, .ok r) => (env1.popScope, .ok r)
            | (env1, .error err) => (env1, .error err)
    | (cond, body) :: rest =>
        match evalExpr ctx fuel cond env with
        | (env1, .error err) => (env1, .error err)
        | (env1, .ok v) =>
            if v.isTruthy then
              match execBlock ctx fuel body env1.pushScope with
              | (env2, .ok r) => (env2.popScope, .ok r)
              | (env2, .error err) => (env2, .error err)
            else
              execShifts ctx fuel rest abandonBranch env1

/-- A function-body walk (`let mut result = Value::Null; for stmt ...
{ if let Some(ret) ... break }`): yields the first returned value, or null
when control falls through. -/
def execFnBody (ctx : Ctx) (fuel : Nat) (stmts : List Statement) (env : Environment) :
    Environment × Except FlowError Value :=
  match fuel with
  | 0 => (env, .error fuelErr)
  | fuel + 1 =>
    match stmts with
    | [] => (env, .ok .null)
    | s :: rest =>
        match evalStmt ctx fuel s env with
        | (env1, .ok (some v)) => (env1, .ok v)
        | (env1, .ok none) => execFnBody ctx fuel rest env1
        | (env1, .error err) => (env1, .error err)

/-- A `for stmt in block { self.execute_statement(stmt).await?; }` walk
(rescue bodies and finally blocks): errors propagate, `Some` returns are
discarded. -/
def execSeq (ctx : Ctx) (fuel : Nat) (stmts : List Statement) (env : Environment) :
    Environment × Except FlowError Unit :=
  match fuel with
  | 0 => (env, .error fuelErr)
  | fuel + 1 =>
    match stmts with
    | [] => (env, .ok ())
    | s :: rest =>
        match evalStmt ctx fuel s env with
        | (env1, .ok _) => execSeq ctx fuel rest env1
        | (env1, .error err) => (env1, .error err)

/-- The ward body walk (lines 881-899): a `Some` return propagates; any
error is absorbed (logged to stderr in the source) and the statement
completes with `Ok(None)`. -/
def execWardBody (ctx : Ctx) (fuel : Nat) (stmts : List Statement) (env : Environment) :
    Environment × Except FlowError (Option Value) :=
  match fuel with
  | 0 => (env, .error fuelErr)
  | fuel + 1 =>
    match stmts with
    | [] => (env, .ok none)
    | s :: rest =>
        match evalStmt ctx fuel s env with
        | (env1, .ok (some v)) => (env1, .ok (some v))
        | (env1, .ok none) => execWardBody ctx fuel rest env1
        | (env1, .error _) => (env1, .ok none)

/-- The attempt-body walk (lines 769-771): `result = Ok(val)` is
overwritten at every statement (no early exit on `Some`); the first error
stops the walk. -/
def execAttemptBody (ctx : Ctx) (fuel : Nat) (stmts : List Statement)
    (acc : Option Value) (env : Environment) :
    Environment × Except FlowError (Option Value) :=
  match fuel with
  | 0 => (env, .error fuelErr)
  | fuel + 1 =>
    match stmts with
    | [] => (env, .ok acc)
    | s :: rest =>
        match evalStmt ctx fuel s env with
        | (env1, .ok val) => execAttemptBody ctx fuel rest val env1
        | (env1, .error err) => (env1, .error err)

/-- The retried re-run of an attempt body (lines 814-820): statements run in
order; only an `Err` matters (returns `false`), return values are ignored. -/
def execTryBody (ctx : Ctx) (fuel : Nat) (stmts : List Statement) (env : Environment) :
    Environment × Bool :=
  match fuel with
  | 0 => (env, false)
  | fuel + 1 =>
    match stmts with
    | [] => (env, true)
    | s :: rest =>
        match evalStmt ctx fuel s env with
        | (env1, .ok _) => execTryBody ctx fuel rest env1
        | (env1, .error _) => (env1, false)

/-- The retry loop (lines 799-825).  `k` is `retry_count - attempts`; a
loop entry runs the rescue body (whose error propagates out of the whole
statement, skipping `finally`), stops when the attempt budget is consumed,
otherwise re-runs the attempt body and stops on success. -/
def execRetryLoop (ctx : Ctx) (fuel : Nat) (k : Nat) (body rescueBody : List Statement)
    (env : Environment) : Environment × Except FlowError Unit :=
  match fuel with
  | 0 => (env, .error fuelErr)
  | fuel + 1 =>
    match execSeq ctx fuel rescueBody env with
    | (env1, .error err) => (env1, .error err)
    | (env1, .ok _) =>
        match k with
        | 0 => (env1, .ok ())
        | k + 1 =>
            match execTryBody ctx fuel body env1 with
            | (env2, true) => (env2, .ok ())
            | (env2, false) => execRetryLoop ctx fuel k body rescueBody env2

/-- The finally block (lines 849-853): it always runs when present; its own
error overrides the current result. -/
def attemptFinally (ctx : Ctx) (fuel : Nat) (finallyBlock : Option (List Statement))
    (env : Environment) (r : Except FlowError (Option Value)) :
    Environment × Except FlowError (Option Value) :=
  match fuel with
  | 0 => (env, .error fuelErr)
  | fuel + 1 =>
    match finallyBlock with
    | none => (env, r)
    | some stmts =>
        match execSeq ctx fuel stmts env with
        | (env1, .ok _) => (env1, r)
        | (env1, .error err) => (env1, .error err)

/-- A callback invocation with one argument (the shared shape of the
`constellation`/`filter`/`find`/`every`/`some` dispatch, lines 1283-1317):
a user function runs its body in a fresh scope with the element bound to
the first parameter; a native is applied directly. -/
def runCallback1 (ctx : Ctx) (fuel : Nat) (emptyMsg notSpellMsg : String)
    (cb : Value) (item : Value) (env : Environment) :
    Environment × Except FlowError Value :=
  match fuel with
  | 0 => (env, .error fuelErr)
  | fuel + 1 =>
    match cb with
    | .function params _ _ body _ =>
        match params with
        | [] => (env, .error (.runtime emptyMsg 0 0))
        | p :: _ =>
            match execFnBody ctx fuel body ((env.pushScope).define p item true) with
            | (env1, .ok v) => (env1.popScope, .ok v)
            | (env1, .error err) => (env1, .error err)
    | .nativeFunction id => (env, ctx.natives id [item])
    | _ => (env, .error (.typeErr notSpellMsg 0 0))

/-- The two-argument callback invocation of `reduce` (lines 1394-1427). -/
def runCallback2 (ctx : Ctx) (fuel : Nat) (cb : Value) (acc item : Value)
    (env : Environment) : Environment × Except FlowError Value :=
  match fuel with
  | 0 => (env, .error fuelErr)
  | fuel + 1 =>
    match cb with
    | .function params _ _ body _ =>
        match params with
        | p0 :: p1 :: _ =>
            match execFnBody ctx fuel body
                (((env.pushScope).define p0 acc true).define p1 item true) with
            | (env1, .ok v) => (env1.popScope, .ok v)
            | (env1, .error err) => (env1, .error err)
        | _ => (env, .error (.runtime "Constellation.reduce() Spell must accept 2 parameters (accumulator, element)" 0 0))
    | .nativeFunction id => (env, ctx.natives id [acc, item])
    | _ => (env, .error (.typeErr "Constellation.reduce() requires a Spell as first argument" 0 0))

/-- The `constellation` (map) element loop (lines 1282-1319). -/
def constellationLoop (ctx : Ctx) (fuel : Nat) (cb : Value) (items : List Value)
    (env : Environment) : Environment × Except FlowError (List Value) :=
  match fuel with
  | 0 => (env, .error fuelErr)
  | fuel + 1 =>
    match items with
    | [] => (env, .ok [])
    | item :: rest =>
        match runCallback1 ctx fuel
            "Constellation.constellation() Spell must accept at least 1 parameter"
            "Constellation.constellation() requires a Spell as argument" cb item env with
        | (env1, .error err) => (env1, .error err)
        | (env1, .ok v) =>
            match constellationLoop ctx fuel cb rest env1 with
            | (env2, .error err) => (env2, .error err)
            | (env2, .ok vs) => (env2, .ok (v :: vs))

/-- The `filter` element loop (lines 1336-1377). -/
def filterLoop (ctx : Ctx) (fuel : Nat) (cb : Value) (items : List Value)
    (env : Environment) : Environment × Except FlowError (List Value) :=
  match fuel with
  | 0 => (env, .error fuelErr)
  | fuel + 1 =>
    match items with
    | [] => (env, .ok [])
    | item :: rest =>
        match runCallback1 ctx fuel
            "Constellation.filter() Spell must accept at least 1 parameter"
            "Constellation.filter() requires a Spell as argument" cb item env with
        | (env1, .error err) => (env1, .error err)
        | (env1, .ok v) =>
            match filterLoop ctx fuel cb rest env1 with
            | (env2, .error err) => (env2, .error err)
            | (env2, .ok vs) =>
                (env2, .ok (if v.isTruthy then item :: vs else vs))

/-- The `reduce` element loop (lines 1390-1429). -/
def reduceLoop (ctx : Ctx) (fuel : Nat) (cb : Value) (acc : Value)
    (items : List Value) (env : Environment) : Environment × Except FlowError Value :=
  match fuel with
  | 0 => (env, .error fuelErr)
  | fuel + 1 =>
    match items with
    | [] => (env, .ok acc)
    | item :: rest =>
        match runCallback2 ctx fuel cb acc item env with
        | (env1, .error err) => (env1, .error err)
        | (env1, .ok acc') => reduceLoop ctx fuel cb acc' rest env1

/-- The `find` element loop (lines 1445-1487). -/
def findLoop (ctx : Ctx) (fuel : Nat) (cb : Value) (items : List Value)
    (env : Environment) : Environment × Except FlowError Value :=
  match fuel with
  | 0 => (env, .error fuelErr)
  | fuel + 1 =>
    match items with
    | [] => (env, .ok .null)
    | item :: rest =>
        match runCallback1 ctx fuel
            "Constellation.find() Spell must accept at least 1 parameter"
            "Constellation.find() requires a Spell as argument" cb item env with
        | (env1, .error err) => (env1, .error err)
        | (env1, .ok v) =>
            if v.isTruthy then (env1, .ok item) else findLoop ctx fuel cb rest env1

/-- The `every` element loop (lines 1501-1543). -/
def everyLoop (ctx : Ctx) (fuel : Nat) (cb : Value) (items : List Value)
    (env : Environment) : Environment × Except FlowError Value :=
  match fuel with
  | 0 => (env, .error fuelErr)
  | fuel + 1 =>
    match items with
    | [] => (env, .ok (.boolean true))
    | item :: rest =>
        match runCallback1 ctx fuel
            "Constellation.every() Spell must accept at least 1 parameter"
            "Constellation.every() requires a Spell as argument" cb item env with
        | (env1, .error err) => (env1, .error err)
        | (env1, .ok v) =>
            if !v.isTruthy then (env1, .ok (.boolean false))
            else everyLoop ctx fuel cb rest env1

/-- The `some` element loop (lines 1557-1599). -/
def someLoop (ctx : Ctx) (fuel : Nat) (cb : Value) (items : List Value)
    (env : Environment) : Environment × Except FlowError Value :=
  match fuel with
  | 0 => (env, .error fuelErr)
  | fuel + 1 =>
    match items with
    | [] => (env, .ok (.boolean false))
    | item :: rest =>
        match runCallback1 ctx fuel
            "Constellation.some() Spell must accept at least 1 parameter"
            "Constellation.some() requires a Spell as argument" cb item env with
        | (env1, .error err) => (env1, .error err)
        | (env1, .ok v) =>
            if v.isTruthy then (env1, .ok (.boolean true))
            else someLoop ctx fuel cb rest env1

/-- The array method dispatch of `evaluate_expression::MethodCall`
(lines 1170-1639).  All operations build new arrays; the receiver list is
never modified. -/
def arrayMethod (ctx : Ctx) (fuel : Nat) (arr : List Value) (method : String)
    (args : List Value) (env : Environment) : Environment × Except FlowError Value :=
  match fuel with
  | 0 => (env, .error fuelErr)
  | fuel + 1 =>
    match method with
    | "len" =>
        if !args.isEmpty then (env, .error (.runtime "Array.len() takes no arguments" 0 0))
        else (env, .ok (.number arr.length))
    | "push" =>
        match args with
        | [v] => (env, .ok (.array (arr ++ [v])))
        | _ => (env, .error (.runtime "Array.push() takes exactly 1 argument" 0 0))
    | "pop" =>
        if !args.isEmpty then (env, .error (.runtime "Array.pop() takes no arguments" 0 0))
        else
          match arr.getLast? with
          | none => (env, .error (.runtime "Cannot pop from empty array" 0 0))
          | some v => (env, .ok v)
    | "slice" =>
        match args with
        | [sv, ev] =>
            match sv with
            | .number sn =>
                match ev with
                | .number en =>
                    let start := ratToUsize sn
                    let endIdx := ratToUsize en
                    if start > arr.length || endIdx > arr.length || start > endIdx then
                      (env, .error (.runtime "Array.slice() indices out of bounds" 0 0))
                    else
                      (env, .ok (.array ((arr.drop start).take (endIdx - start))))
                | _ => (env, .error (.typeErr "Array.slice() end index must be a number" 0 0))
            | _ => (env, .error (.typeErr "Array.slice() start index must be a number" 0 0))
        | _ => (env, .error (.runtime "Array.slice() takes exactly 2 arguments (start, end)" 0 0))
    | "concat" =>
        match args with
        | [other] =>
            match other with
            | .array otherArr => (env, .ok (.array (arr ++ otherArr)))
            | _ => (env, .error (.typeErr "Constellation.concat() requires a Constellation argument" 0 0))
        | _ => (env, .error (.runtime "Constellation.concat() takes exactly 1 argument" 0 0))
    | "constellation" =>
        match args with
        | [cb] =>
            match constellationLoop ctx fuel cb arr env with
            | (env1, .error err) => (env1, .error err)
            | (env1, .ok vs) => (env1, .ok (.array vs))
        | _ => (env, .error (.runtime "Constellation.constellation() takes exactly 1 argument (a Spell)" 0 0))
    | "filter" =>
        match args with
        | [cb] =>
            match filterLoop ctx fuel cb arr env with
            | (env1, .error err) => (env1, .error err)
            | (env1, .ok vs) => (env1, .ok (.array vs))
        | _ => (env, .error (.runtime "Constellation.filter() takes exactly 1 argument (a Spell)" 0 0))
    | "reduce" =>
        match args with
        | [cb, init] => reduceLoop ctx fuel cb init arr env
        | _ => (env, .error (.runtime "Constellation.reduce() takes exactly 2 arguments (Spell, initialValue)" 0 0))
    | "find" =>
        match args with
        | [cb] => findLoop ctx fuel cb arr env
        | _ => (env, .error (.runtime "Constellation.find() takes exactly 1 argument (a Spell)" 0 0))
    | "every" =>
        match args with
        | [cb] => everyLoop ctx fuel cb arr env
        | _ => (env, .error (.runtime "Constellation.every() takes exactly 1 argument (a Spell)" 0 0))
    | "some" =>
        match args with
        | [cb] => someLoop ctx fuel cb arr env
        | _ => (env, .error (.runtime "Constellation.some() takes exactly 1 argument (a Spell)" 0 0))
    | "reverse" =>
        if !args.isEmpty then (env, .error (.runtime "Constellation.reverse() takes no arguments" 0 0))
        else (env, .ok (.array arr.reverse))
    | "join" =>
        match args with
        | [sep] =>
            match sep with
            | .string s => (env, .ok (.string (String.intercalate s (toStrList arr))))
            | _ => (env, .error (.typeErr "Constellation.join() separator must be a Silk (string)" 0 0))
        | _ => (env, .error (.runtime "Constellation.join() takes exactly 1 argument (separator)" 0 0))
    | _ => (env, .error (.runtime ("Unknown method '" ++ method ++ "' on Constellation") 0 0))

/-- The relic (module-map) method dispatch (lines 1641-1704): look up the
member and call it. -/
def relicMethod (ctx : Ctx) (fuel : Nat) (entries : List (String × Value))
    (method : String) (args : List Value) (env : Environment) :
    Environment × Except FlowError Value :=
  match fuel with
  | 0 => (env, .error fuelErr)
  | fuel + 1 =>
    match relicGet entries method with
    | none => (env, .error (.undefined ("Module has no function '" ++ method ++ "'") 0 0))
    | some f =>
        match f with
        | .nativeFunction id => (env, ctx.natives id args)
        | .asyncNativeFunction id => (env, ctx.anatives id args)
        | .function params _ returnType body _ =>
            if params.length ≠ args.length then
              (env, .error (.runtime ("Function expects " ++ toString params.length
                ++ " arguments, got " ++ toString args.length) 0 0))
            else
              match execFnBody ctx fuel body (bindParams env.pushScope params args) with
              | (env1, .error err) => (env1, .error err)
              | (env1, .ok result) =>
                  let env2 := env1.popScope
                  match returnType with
                  | some expected =>
                      if checkTypeCompat result expected then (env2, .ok result)
                      else
                        (env2, .error (.typeErr ("Function expected to return "
                          ++ expected.displayStr ++ ", but returned " ++ result.typeName) 0 0))
                  | none => (env2, .ok result)
        | _ => (env, .error (.typeErr ("'" ++ method ++ "' is not a function") 0 0))

end


/-! ## The constant folder (src/optimizer/constant_folder.rs). -/

/-- `f64::EPSILON` = 2^-52, exactly representable as a rational; the
folder's `IsEqual`/`NotEqual` use it. -/
def f64Epsilon : ℚ := 1 / 2 ^ 52

/-- `ConstantFolder::try_fold_binary` (lines 262-314).  `Modulo` is omitted
with the operator (header note); every other arm is as in the source —
in particular division with a zero literal divisor folds to `None`. -/
def tryFoldBinary (left : Expression) (op : BinaryOp) (right : Expression) :
    Option Expression :=
  match left, right with
  | .number a, .number b =>
      match op with
      | .add => some (.number (a + b))
      | .subtract => some (.number (a - b))
      | .multiply => some (.number (a * b))
      | .divide => if b = 0 then none else some (.number (a / b))
      | .greater => some (.boolean (decide (b < a)))
      | .less => some (.boolean (decide (a < b)))
      | .greaterEq => some (.boolean (decide (b ≤ a)))
      | .lessEq => some (.boolean (decide (a ≤ b)))
      | .isEqual => some (.boolean (decide (|a - b| < f64Epsilon)))
      | .notEqual => some (.boolean (decide (f64Epsilon ≤ |a - b|)))
      | _ => none
  | .string a, .string b =>
      match op with
      | .add => some (.string (a ++ b))
      | _ => none
  | .boolean a, .boolean b =>
      match op with
      | .both => some (.boolean (a && b))
      | .either => some (.boolean (a || b))
      | .isEqual => some (.boolean (a == b))
      | .notEqual => some (.boolean (a != b))
      | _ => none
  | _, _ => none

/-- `ConstantFolder::try_fold_unary` (lines 317-323). -/
def tryFoldUnary (op : UnaryOp) (operand : Expression) : Option Expression :=
  match op, operand with
  | .minus, .number n => some (.number (-n))
  | .negate, .boolean b => some (.boolean (!b))
  | _, _ => none

mutual

/-- `ConstantFolder::fold_expression` (lines 156-259) on the embedded
expression subset: fold children, then try to fold the node. -/
def foldExpression : Expression → Expression
  | .binary left op right =>
      let l := foldExpression left
      let r := foldExpression right
      match tryFoldBinary l op r with
      | some result => result
      | none => .binary l op r
  | .unary op operand =>
      let o := foldExpression operand
      match tryFoldUnary op o with
      | some result => result
      | none => .unary op o
  | .array elements => .array (foldExpressionList elements)
  | .methodCall obj method args =>
      .methodCall (foldExpression obj) method (foldExpressionList args)
  | .inlineSpell params paramTypes returnType body line =>
      .inlineSpell params paramTypes returnType (foldExpression body) line
  | other => other

def foldExpressionList : List Expression → List Expression
  | [] => []
  | e :: rest => foldExpression e :: foldExpressionList rest

end

/-! ## Imports and the module cache (src/interpreter/mod.rs,
`execute_import`, lines 142-294).  The filesystem and the recursive load of
a module (read → tokenize → parse → execute in a child interpreter) are
abstracted as parameters; the claims under test are about what happens
before or instead of the load. -/

/-- One entry of a selective import: `name [as alias]`. -/
structure SelectiveImport where
  name : String
  aliasName : Option String
deriving Repr

/-- An import declaration (src/parser/ast.rs, `Import`). -/
structure Import where
  module : String
  aliasName : Option String
  fromPath : Option String
  selective : Option (List SelectiveImport)
deriving Repr

/-- The import-relevant interpreter state (fields of `Interpreter`). -/
structure InterpState where
  env : Environment
  moduleCache : List (String × Environment)
  currentDir : String
  loadingStack : List String
deriving Repr

/-- The filesystem operations `execute_import` uses. -/
structure FS where
  canonicalize : String → Option String
  readToString : String → Option String

/-- Association-list lookup for the module cache. -/
def cacheGet (cache : List (String × Environment)) (key : String) : Option Environment :=
  match cache with
  | [] => none
  | (k, v) :: rest => if k = key then some v else cacheGet rest key

/-- Association-list insert for the module cache. -/
def cacheInsert (cache : List (String × Environment)) (key : String) (env : Environment) :
    List (String × Environment) :=
  match cache with
  | [] => [(key, env)]
  | (k, v) :: rest =>
      if k = key then (key, env) :: rest else (k, v) :: cacheInsert rest key env

/-- Rust `Path::file_name` rendered as a string: the last `/`-separated
component. -/
def fileName (p : String) : String :=
  ((p.splitOn "/").getLast?).getD p

/-- `Vec::join(sep)`. -/
def joinSep (sep : String) : List String → String
  | [] => ""
  | [x] => x
  | x :: rest => x ++ sep ++ joinSep sep rest

/-- Path resolution of `execute_import` steps 1 (lines 161-173): current
dir + (`from_path` or module name), with `.flow` appended when the target
has no extension. -/
def resolveModulePath (dir : String) (imp : Import) : String :=
  let p := dir ++ "/" ++ (match imp.fromPath with
    | some path => path
    | none => imp.module)
  if (fileName p).contains '.' then p else p ++ ".flow"

/-- The circular-dependency error message (lines 191-212): the loading
chain's filenames joined by arrows, then the cycle-closing file. -/
def circularMsg (loadingStack : List String) (canonicalPath : String) : String :=
  "Circular dependency detected!\nThe snake eats its own tail!\n\nImport chain: "
    ++ joinSep " → " (loadingStack.map fileName) ++ " → " ++ fileName canonicalPath
    ++ "\n\nThis circular import creates an infinite loop."

/-- The selective-import loop (lines 259-275): each requested name is
looked up with `Environment::get` (which ignores the exported flag) and
bound immutably under its alias; a missing name is an error. -/
def importSelective (moduleEnv : Environment) (moduleName : String)
    (sels : List SelectiveImport) (env : Environment) : Except FlowError Environment :=
  match sels with
  | [] => .ok env
  | sel :: rest =>
      match moduleEnv.get sel.name with
      | none =>
          .error (.runtime ("Module '" ++ moduleName ++ "' does not export '"
            ++ sel.name ++ "'") 0 0)
      | some v =>
          importSelective moduleEnv moduleName rest
            (env.define (sel.aliasName.getD sel.name) v false)

/-- `Interpreter::execute_import` (lines 142-294).  `stdlibLoad` abstracts
`stdlib::load_module`; `loadModule source stack` abstracts tokenize + parse
+ execution of the module in a child interpreter whose loading stack is
`stack`, yielding the module's global environment. -/
def executeImport (fs : FS) (stdlibLoad : String → Option (List (String × Value)))
    (loadModule : String → List String → Except FlowError Environment)
    (st : InterpState) (imp : Import) : Except FlowError InterpState :=
  let isStd := match imp.fromPath with
    | some p => p.startsWith "std:"
    | none => false
  if isStd then
    let libName := (imp.fromPath.getD "").drop 4
    match stdlibLoad libName with
    | some moduleMap =>
        .ok { st with
          env := st.env.define (imp.aliasName.getD imp.module) (.relic moduleMap) false }
    | none =>
        .error (.runtime ("Unknown standard library module '" ++ libName ++ "'") 0 0)
  else
    let modulePath := resolveModulePath st.currentDir imp
    match fs.canonicalize modulePath with
    | none =>
        .error (.runtime ("Cannot find circle '" ++ imp.module ++ "' at "
          ++ modulePath) 0 0)
    | some canonicalPath =>
        let moduleKey := canonicalPath
        if moduleKey ∈ st.loadingStack then
          .error (.runtime (circularMsg st.loadingStack canonicalPath) 0 0)
        else
          let loaded : Except FlowError (List (String × Environment)) :=
            if (cacheGet st.moduleCache moduleKey).isSome then .ok st.moduleCache
            else
              match fs.readToString canonicalPath with
              | none =>
                  .error (.runtime ("Failed to read circle '" ++ imp.module ++ "'") 0 0)
              | some source =>
                  match loadModule source (st.loadingStack ++ [moduleKey]) with
                  | .error e => .error e
                  | .ok moduleEnv => .ok (cacheInsert st.moduleCache moduleKey moduleEnv)
          match loaded with
          | .error e => .error e
          | .ok cache' =>
              match cacheGet cache' moduleKey with
              | none => .error (.runtime "module cache miss" 0 0)
              | some moduleEnv =>
                  match imp.selective with
                  | some sels =>
                      match importSelective moduleEnv imp.module sels st.env with
                      | .error e => .error e
                      | .ok env' => .ok { st with env := env', moduleCache := cache' }
                  | none =>
                      let publicVars := moduleEnv.getAllPublic
                      let aliasN := imp.aliasName.getD imp.module
                      .ok { st with
                        env := st.env.define aliasN (.relic publicVars) false,
                        moduleCache := cache' }

/-! ## Proof-side vocabulary. -/

/-- `sub` occurs as a substring of `s`. -/
def strContains (s sub : String) : Prop := ∃ p q, s = p ++ sub ++ q

/-- The truthiness predicate exactly as the specification's claim words it:
Boolean true; non-zero number; non-empty string, array, map; every function
value; handle with non-zero id.  (Spec-side definition, to be compared with
`Value.isTruthy` from the source.) -/
def truthinessSpec : Value → Prop
  | .boolean b => b = true
  | .null => False
  | .number n => n ≠ 0
  | .string s => s ≠ ""
  | .array a => a ≠ []
  | .relic m => m ≠ []
  | .function _ _ _ _ _ => True
  | .nativeFunction _ => True
  | .asyncNativeFunction _ => True
  | .handle id => id ≠ 0

/-! ## Concrete probe programs and values used by the claims' theorems. -/

/-- The identity inline Spell `Spell x -> x` as an expression. -/
def idSpellExpr : Expression := .inlineSpell ["x"] [none] none (.identifier "x") 0

/-- The value `idSpellExpr` evaluates to. -/
def idSpellVal : Value :=
  .function ["x"] [none] none [.returnStmt (some (.identifier "x")) 0] false

/-- The constant-true inline Spell `Spell x -> true`. -/
def trueSpellExpr : Expression := .inlineSpell ["x"] [none] none (.boolean true) 0

/-- The value `trueSpellExpr` evaluates to. -/
def trueSpellVal : Value :=
  .function ["x"] [none] none [.returnStmt (some (.boolean true)) 0] false

/-- The accumulator-keeping inline Spell `Spell (a, x) -> a`. -/
def accSpellExpr : Expression :=
  .inlineSpell ["a", "x"] [none, none] none (.identifier "a") 0

/-- The value `accSpellExpr` evaluates to. -/
def accSpellVal : Value :=
  .function ["a", "x"] [none, none] none [.returnStmt (some (.identifier "a")) 0] false

/-- (C5 probe) an attempt body that fails on its first execution — the flag
is false, so the abandon branch sets it true and ruptures — and returns `v`
on the re-run, when the flag is true. -/
def retryProbeBody (v : ℚ) : List Statement :=
  [.stance (.identifier "flag")
    [.returnStmt (some (.number v)) 3]
    []
    (some [.assignment "flag" (.boolean true) 5,
      .rupture "Spirit" (.string "boom") 6]) 2]

/-- (C5 probe) `attempt { body } rescue retry n { }` around `retryProbeBody`. -/
def retryProbe (v : ℚ) (n : Nat) : Statement :=
  .attempt (retryProbeBody v) [(none, none, some n, [])] none 1

/-- (C5 probe) an environment with a mutable `flag = false`. -/
def flagEnv : Environment := Environment.new.define "flag" (.boolean false) true

/-- (C6 probe) an environment after `seal x = 10`. -/
def sealedEnvX : Environment :=
  Environment.new.defineWithExport "x" (.number 10) false false

/-- (C8 probe) a module environment whose global scope binds `secret`
without the exported flag. -/
def secretModuleEnv : Environment := ⟨[[("secret", (.number 7, true, false))]]⟩

/-- (C8 probe) a filesystem that canonicalizes everything to `/m.flow` and
can read nothing. -/
def c8FS : FS := ⟨fun _ => some "/m.flow", fun _ => none⟩

/-- (C8 probe) interpreter state with `secretModuleEnv` already cached. -/
def c8State : InterpState :=
  ⟨Environment.new, [("/m.flow", secretModuleEnv)], "/d", []⟩

/-- (C8 probe) the selective import `circle {secret} from "m"`. -/
def c8Import : Import := ⟨"m", none, none, some [⟨"secret", none⟩]⟩

/-- (C7 probe) a filesystem that canonicalizes everything to `/a/b.flow`. -/
def c7FS : FS := ⟨fun _ => some "/a/b.flow", fun _ => none⟩

/-- (C7 probe) interpreter state already loading `/a/b.flow`. -/
def c7State : InterpState := ⟨Environment.new, [], "/a", ["/a/b.flow"]⟩

/-- (C7 probe) the import `circle b`. -/
def c7Import : Import := ⟨"b", none, none, none⟩

/-- (C9 probe) `attempt { rupture Rift "down" } rescue Rift as e { }`. -/
def c9Probe : Statement :=
  .attempt [.rupture "Rift" (.string "down") 1] [(some "Rift", some "e", none, [])] none 1

/-! ## Shared helper lemmas. -/

theorem strAppend_assoc (a b c : String) : a ++ b ++ c = a ++ (b ++ c) := by
  apply String.ext
  simp [String.data_append]

theorem strContains_mid (p x q : String) : strContains (p ++ x ++ q) x :=
  ⟨p, q, rfl⟩

theorem strContains_append_left (t s x : String) (h : strContains s x) :
    strContains (t ++ s) x := by
  obtain ⟨p, q, rfl⟩ := h
  exact ⟨t ++ p, q, by simp [strAppend_assoc]⟩

theorem strContains_append_right (s t x : String) (h : strContains s x) :
    strContains (s ++ t) x := by
  obtain ⟨p, q, rfl⟩ := h
  exact ⟨p, q ++ t, by simp [strAppend_assoc]⟩

theorem joinSep_contains (sep : String) (l : List String) (x : String) (h : x ∈ l) :
    strContains (joinSep sep l) x := by
  induction l with
  | nil => cases h
  | cons a rest ih =>
      match rest, h with
      | [], h =>
          rcases List.mem_singleton.mp h with rfl
          exact ⟨"", "", by simp [joinSep]⟩
      | b :: rest', h =>
          rcases List.mem_cons.mp h with rfl | hmem
          · exact ⟨"", sep ++ joinSep sep (b :: rest'), by simp [joinSep, strAppend_assoc]⟩
          · have hc := ih hmem
            have h1 : strContains (sep ++ joinSep sep (b :: rest')) x :=
              strContains_append_left _ _ _ hc
            have h2 := strContains_append_left a _ x h1
            simpa [joinSep, strAppend_assoc] using h2

/-- `get` returns the value of the first-found binding. -/
theorem envGet_of_lookupScopes (scopes : List Scope) (name : String) (w : Value)
    (m ex : Bool) (h : lookupScopes scopes name = some (w, m, ex)) :
    envGet scopes name = some w := by
  induction scopes with
  | nil => simp [lookupScopes] at h
  | cons sc rest ih =>
      simp only [lookupScopes] at h
      simp only [envGet]
      cases hg : scopeGet sc name with
      | none => rw [hg] at h; exact ih h
      | some b => rw [hg] at h; cases h; rfl

/-- The `set` walk fails with the sealed-essence error, updating nothing,
when the first-found binding is immutable. -/
theorem envSet_sealed (scopes : List Scope) (name : String) (w : Value) (ex : Bool)
    (v : Value) (h : lookupScopes scopes name = some (w, false, ex)) :
    envSet scopes name v = .error (.runtime (sealedEssenceMsg name) 0 0) := by
  induction scopes with
  | nil => simp [lookupScopes] at h
  | cons sc rest ih =>
      simp only [lookupScopes] at h
      simp only [envSet]
      cases hg : scopeGet sc name with
      | none => rw [hg] at h; rw [ih h]
      | some b =>
          rw [hg] at h
          cases h
          rfl

/-- A successful `get` needs at least one scope. -/
theorem scopes_ne_nil_of_get (env : Environment) (name : String) (v : Value)
    (h : env.get name = some v) : env.scopes ≠ [] := by
  intro hnil
  rw [Environment.get, hnil] at h
  simp [envGet] at h

/-! ## C10 -/

/-- C10: the truthiness predicate of the source (`Value::is_truthy`)
coincides with the claim's case enumeration: a Boolean is truthy iff true,
Null is falsy, a Number is truthy iff non-zero, a String / Array / Map is
truthy iff non-empty, every function value is truthy, and a Handle is
truthy iff its id is non-zero. -/
theorem c10_truthiness (v : Value) : v.isTruthy = true ↔ truthinessSpec v := by
  cases v <;> simp [Value.isTruthy, truthinessSpec, ← String.isEmpty_iff,
    List.isEmpty_iff, Nat.pos_iff_ne_zero]

/-! ## C1 -/

/-- C1: evaluating the division of two number values with zero divisor
raises the dedicated DivisionByZero error (that variant, not a generic
arithmetic or Runtime error), both in `apply_binary_op` and in the
evaluation of a binary literal division; and the constant folder never
folds a division of two number literals with zero divisor
(`try_fold_binary` yields `None` and `fold_expression` leaves the
expression unchanged in the AST). -/
theorem c1_division_by_zero (a b : ℚ) (hb : b = 0) :
    applyBinaryOp (.number a) .divide (.number b)
        = .error (.divisionByZero dbzMsg 0 0)
    ∧ (∀ (ctx : Ctx) (f : Nat) (env : Environment),
        evalExpr ctx (f + 2) (.binary (.number a) .divide (.number b)) env
          = (env, .error (.divisionByZero dbzMsg 0 0)))
    ∧ tryFoldBinary (.number a) .divide (.number b) = none
    ∧ foldExpression (.binary (.number a) .divide (.number b))
        = .binary (.number a) .divide (.number b) := by
  subst hb
  refine ⟨?_, ?_, ?_, ?_⟩
  · simp [applyBinaryOp, FlowError.mkDivisionByZero]
  · intro ctx f env
    simp [evalExpr, applyBinaryOp, FlowError.mkDivisionByZero]
  · simp [tryFoldBinary]
  · simp [foldExpression, tryFoldBinary]

/-- Witness for C1 at `a = 1, b = 0`. -/
theorem c1_division_by_zero_witness :
    applyBinaryOp (.number 1) .divide (.number 0)
        = .error (.divisionByZero dbzMsg 0 0)
    ∧ evalExpr defCtx 2 (.binary (.number 1) .divide (.number 0)) Environment.new
        = (Environment.new, .error (.divisionByZero dbzMsg 0 0))
    ∧ tryFoldBinary (.number 1) .divide (.number 0) = none
    ∧ foldExpression (.binary (.number 1) .divide (.number 0))
        = .binary (.number 1) .divide (.number 0) := by
  obtain ⟨h1, h2, h3, h4⟩ := c1_division_by_zero 1 0 rfl
  exact ⟨h1, h2 defCtx 0 Environment.new, h3, h4⟩

/-! ## C3 -/

/-- C3 counterexample: `both!` is not short-circuit.  With a falsy left
operand, the claim says the right operand is not evaluated and the result
is the boolean false; but evaluating `false both! (1/0)` evaluates the
right operand and raises its DivisionByZero error instead of returning
`Ok(Boolean(false))`. -/
theorem c3_counterexample :
    evalExpr defCtx 10
        (.binary (.boolean false) .both (.binary (.number 1) .divide (.number 0)))
        Environment.new
      = (Environment.new, .error (.divisionByZero dbzMsg 0 0))
    ∧ ((Environment.new, .error (.divisionByZero dbzMsg 0 0)) :
        Environment × Except FlowError Value)
      ≠ (Environment.new, .ok (.boolean false)) := by
  constructor
  · rfl
  · simp

/-- C3 (amended): `both!`/`either!` are truthiness-based boolean operators,
but they are not short-circuit: `Expression::Binary` always evaluates both
operands.  On two operand values the result is the conjunction /
disjunction of their truthiness; and when the left operand evaluates to any
value (truthy or falsy) and the right operand's evaluation raises an error,
the whole expression raises that error. -/
theorem c3_both_either_not_short_circuit :
    (∀ l r : Value,
        applyBinaryOp l .both r = .ok (.boolean (l.isTruthy && r.isTruthy))
        ∧ applyBinaryOp l .either r = .ok (.boolean (l.isTruthy || r.isTruthy)))
    ∧ (∀ (ctx : Ctx) (fuel : Nat) (e1 e2 : Expression) (env env1 env2 : Environment)
        (v1 : Value) (err : FlowError) (op : BinaryOp),
        op = .both ∨ op = .either →
        evalExpr ctx fuel e1 env = (env1, .ok v1) →
        evalExpr ctx fuel e2 env1 = (env2, .error err) →
        evalExpr ctx (fuel + 1) (.binary e1 op e2) env = (env2, .error err)) := by
  constructor
  · intro l r
    constructor <;> cases l <;> cases r <;> rfl
  · intro ctx fuel e1 e2 env env1 env2 v1 err op _ h1 h2
    simp [evalExpr, h1, h2]

/-- Witness for C3's amended theorem: `false both! 3` computes the boolean
conjunction of truthiness, and `false both! (1/0)` propagates the
right-operand error. -/
theorem c3_both_either_not_short_circuit_witness :
    applyBinaryOp (.boolean false) .both (.number 3) = .ok (.boolean false)
    ∧ evalExpr defCtx 3
        (.binary (.boolean false) .both (.binary (.number 1) .divide (.number 0)))
        Environment.new
      = (Environment.new, .error (.divisionByZero dbzMsg 0 0)) := by
  constructor
  · have h := (c3_both_either_not_short_circuit.1 (.boolean false) (.number 3)).1
    simpa using h
  · exact c3_both_either_not_short_circuit.2 defCtx 2 _ _ _ _ _ (.boolean false)
      (.divisionByZero dbzMsg 0 0) .both (Or.inl rfl) rfl rfl

/-! ## C2 -/

/-- The ward body walk never returns an error when given enough fuel for
its list recursion: every inner error, of any kind, is absorbed. -/
theorem execWardBody_no_error (ctx : Ctx) (body : List Statement) :
    ∀ (fuel : Nat) (env : Environment), body.length < fuel →
      ∃ env' r, execWardBody ctx fuel body env = (env', .ok r) := by
  induction body with
  | nil =>
      intro fuel env h
      match fuel with
      | f + 1 => exact ⟨env, none, rfl⟩
  | cons s rest ih =>
      intro fuel env h
      match fuel with
      | f + 1 =>
        have hf : rest.length < f := by simpa using h
        rcases hv : evalStmt ctx f s env with ⟨env1, r⟩
        match r with
        | .ok (some v) => exact ⟨env1, some v, by simp [execWardBody, hv]⟩
        | .ok none =>
            obtain ⟨env', r', hr⟩ := ih f env1 hf
            exact ⟨env', r', by simp [execWardBody, hv, hr]⟩
        | .error e => exact ⟨env1, none, by simp [execWardBody, hv]⟩

/-- C2 counterexample: the claim's exception is false — Break and Continue
are also caught by ward.  A ward body consisting of a lone `break` (or
`continue`) statement completes with `Ok(None)`: the control-flow signal
does not propagate out of the ward. -/
theorem c2_counterexample :
    evalStmt defCtx 5 (.ward [.breakSeal 2] 1) Environment.new
      = (Environment.new, .ok none)
    ∧ evalStmt defCtx 5 (.ward [.fractureSeal 2] 1) Environment.new
      = (Environment.new, .ok none) := ⟨rfl, rfl⟩

/-- C2 (amended): every error raised while executing a ward body — with no
exception for the Break and Continue control-flow signals, which the ward
arm matches like any other `Err` — is swallowed (and logged to stderr in
the source): the ward statement never produces an error, and when a
statement of the body errors the statement completes with null
(`Ok(None)`). -/
theorem c2_ward_swallows_every_error :
    (∀ (ctx : Ctx) (fuel : Nat) (body : List Statement) (line : Nat) (env : Environment),
        body.length < fuel →
        ∃ env' r, evalStmt ctx (fuel + 1) (.ward body line) env = (env', .ok r))
    ∧ (∀ (ctx : Ctx) (fuel : Nat) (s : Statement) (rest : List Statement) (line : Nat)
        (env env1 : Environment) (e : FlowError),
        evalStmt ctx fuel s env = (env1, .error e) →
        evalStmt ctx (fuel + 2) (.ward (s :: rest) line) env = (env1, .ok none)) := by
  constructor
  · intro ctx fuel body line env h
    obtain ⟨env', r, hr⟩ := execWardBody_no_error ctx body fuel env h
    exact ⟨env', r, by simp [evalStmt, hr]⟩
  · intro ctx fuel s rest line env env1 e h
    simp [evalStmt, execWardBody, h]

/-- Witness for C2's amended theorem: a ward around a rupture completes
with ok, and a ward whose first statement breaks completes with null. -/
theorem c2_ward_swallows_every_error_witness :
    (∃ env' r, evalStmt defCtx 3
        (.ward [.rupture "Spirit" (.string "x") 2] 1) Environment.new
      = (env', .ok r))
    ∧ evalStmt defCtx 3 (.ward [.breakSeal 2] 1) Environment.new
      = (Environment.new, .ok none) := by
  constructor
  · exact c2_ward_swallows_every_error.1 defCtx 2 _ 1 Environment.new (by simp)
  · exact c2_ward_swallows_every_error.2 defCtx 1 (.breakSeal 2) [] 1
      Environment.new Environment.new (.breakSig 2 0) rfl

/-! ## C6 -/

/-- C6: when a name's first-found binding is immutable (a `seal` binding),
an assignment statement targeting it raises a Runtime-kind error whose
message contains the word "sealed", and the environment — hence the
binding's value — is exactly the one produced by evaluating the right-hand
side, unchanged by the failed `set`. -/
theorem c6_sealed_assignment (ctx : Ctx) (fuel : Nat) (name : String) (e : Expression)
    (env env1 : Environment) (v w : Value) (ex : Bool) (line : Nat)
    (heval : evalExpr ctx fuel e env = (env1, .ok v))
    (hseal : lookupBinding env1 name = some (w, false, ex)) :
    evalStmt ctx (fuel + 1) (.assignment name e line) env
        = (env1, .error (.runtime (assignFailMsg name) line 0))
    ∧ strContains (assignFailMsg name) "sealed"
    ∧ env1.get name = some w := by
  rw [lookupBinding] at hseal
  refine ⟨?_, ?_, ?_⟩
  · have hset : env1.set name v = .error (.runtime (sealedEssenceMsg name) 0 0) := by
      rw [Environment.set, envSet_sealed env1.scopes name w ex v hseal]
    simp [evalStmt, heval, hset]
  · refine ⟨"Cannot assign to '" ++ name ++ "'. Variable may not exist or is ",
      " (use 'seal' for immutable, 'let' for mutable).", ?_⟩
    have hlit : ("'. Variable may not exist or is sealed (use 'seal' for immutable, 'let' for mutable)." : String)
        = "'. Variable may not exist or is " ++ "sealed"
          ++ " (use 'seal' for immutable, 'let' for mutable)." := rfl
    simp [assignFailMsg, strAppend_assoc, hlit]
  · rw [Environment.get, envGet_of_lookupScopes env1.scopes name w false ex hseal]

/-- Witness for C6: after `seal x = 10`, the assignment `x = 11` fails with
the Runtime "sealed" error and `x` still holds 10. -/
theorem c6_sealed_assignment_witness :
    evalStmt defCtx 2 (.assignment "x" (.number 11) 7) sealedEnvX
        = (sealedEnvX, .error (.runtime (assignFailMsg "x") 7 0))
    ∧ strContains (assignFailMsg "x") "sealed"
    ∧ sealedEnvX.get "x" = some (.number 10) :=
  c6_sealed_assignment defCtx 1 "x" (.number 11) sealedEnvX sealedEnvX
    (.number 11) (.number 10) false 7 rfl rfl

/-! ## C9 -/

/-- C9 counterexample: rescuing `rupture Rift "down"` with `rescue Rift as e`
binds to `e` the full `Display` rendering of the error — kind tag and
position included — not the bare message "down" that the claim states. -/
theorem c9_counterexample :
    ((evalStmt defCtx 10 c9Probe Environment.new).1).get "e"
        = some (.string "🌐 RIFT at 1:0 - down")
    ∧ ("🌐 RIFT at 1:0 - down" : String) ≠ "down" := by
  constructor
  · rfl
  · decide

/-- C9 (amended): when an attempt body raises a Rift error that a
`rescue Rift as name` clause catches, the value bound to the name is the
string produced by the error's `Display` rendering (`err.to_string()`),
which prefixes the kind tag and position to the message — not the bare
message string. -/
theorem c9_rescue_binds_display_string (ctx : Ctx) (f line line2 : Nat)
    (msg bname : String) (env : Environment) :
    evalStmt ctx (f + 5)
        (.attempt [.rupture "Rift" (.string msg) line]
          [(some "Rift", some bname, none, [])] none line2) env
      = (env.define bname (.string ((FlowError.rift msg line 0).displayString)) true,
          .ok none)
    ∧ (FlowError.rift msg line 0).displayString
        = "🌐 RIFT at " ++ toString line ++ ":0 - " ++ msg := by
  constructor
  · simp [evalStmt, execAttemptBody, evalExpr, Value.toStr, findMatchingClause,
      FlowError.errorTypeName, execSeq, attemptFinally]
  · have ht : toString (0 : Nat) = "0" := rfl
    have hm : (":" : String) ++ ("0" ++ " - ") = ":0 - " := by decide
    simp only [FlowError.displayString, ht]
    congr 1
    rw [← hm]
    simp [strAppend_assoc]

/-! ## C5 -/

/-- C5 counterexample: an attempt whose body fails once and then, on the
re-run under `retry 2`, returns 42, yields `Ok(None)` — not the success's
return value `Ok(Some(42))` that the claim states: the retry machinery
discards the re-run's result and sets the attempt result to `Ok(None)`. -/
theorem c5_counterexample :
    (evalStmt defCtx 30 (retryProbe 42 2) flagEnv).2 = .ok none
    ∧ (Except.ok (none : Option Value)) ≠ (Except.ok (some (Value.number 42))
        : Except FlowError (Option Value)) := by
  constructor
  · rfl
  · simp

/-- C5 (amended): for an attempt with a `retry N` rescue (N ≥ 2) whose
rescue body is empty and whose body fails once and then succeeds on the
re-run returning `v`, the overall result of the attempt statement is
`Ok(None)` — the success's return value is discarded by the retry loop. -/
theorem c5_retry_success_yields_none (f : Nat) (v : ℚ) (n : Nat) (hn : 2 ≤ n) :
    (evalStmt defCtx (f + 12) (retryProbe v n) flagEnv).2 = .ok none := by
  obtain ⟨k, rfl⟩ : ∃ k, n = k + 2 := ⟨n - 2, by omega⟩
  simp [retryProbe, retryProbeBody, flagEnv, evalStmt, evalExpr, execAttemptBody,
    execShifts, execBlock, execSeq, execTryBody, execRetryLoop, attemptFinally,
    findMatchingClause, FlowError.errorTypeName, Value.isTruthy, Value.toStr,
    Environment.get, envGet, scopeGet, Environment.define, Environment.defineWithExport,
    scopeInsert, Environment.set, envSet, Environment.pushScope, Environment.popScope,
    Environment.new]

/-- Witness for C5's amended theorem at `v = 42, n = 2, f = 0`. -/
theorem c5_retry_success_yields_none_witness :
    (evalStmt defCtx 12 (retryProbe 42 2) flagEnv).2 = .ok none :=
  c5_retry_success_yields_none 0 42 2 (by decide)

/-! ## C7 -/

/-- C7: when the canonicalized target of a non-`std:` import is already on
the loading stack, `execute_import` raises a Runtime error carrying the
circular-dependency message — independently of how (or whether) files can
be read and modules loaded, i.e. before reading, parsing or executing the
target module — and that message lists the filename of every stack entry of
the cycle and of the cycle-closing file. -/
theorem c7_circular_import (fs : FS) (st : InterpState) (imp : Import) (key : String)
    (hstd : ∀ p, imp.fromPath = some p → p.startsWith "std:" = false)
    (hcanon : fs.canonicalize (resolveModulePath st.currentDir imp) = some key)
    (hmem : key ∈ st.loadingStack) :
    (∀ (fs2 : FS) (stdlibLoad : String → Option (List (String × Value)))
        (loadModule : String → List String → Except FlowError Environment),
        fs2.canonicalize = fs.canonicalize →
        executeImport fs2 stdlibLoad loadModule st imp
          = .error (.runtime (circularMsg st.loadingStack key) 0 0))
    ∧ (∀ p, p ∈ st.loadingStack →
        strContains (circularMsg st.loadingStack key) (fileName p))
    ∧ strContains (circularMsg st.loadingStack key) (fileName key) := by
  refine ⟨?_, ?_, ?_⟩
  · intro fs2 stdlibLoad loadModule hfs
    rcases himp : imp.fromPath with _ | p
    · simp [executeImport, himp, hfs, hcanon, hmem]
    · have hp := hstd p himp
      simp [executeImport, himp, hp, hfs, hcanon, hmem]
  · intro p hp
    have hx : fileName p ∈ st.loadingStack.map fileName := List.mem_map_of_mem fileName hp
    have h0 := joinSep_contains " → " (st.loadingStack.map fileName) (fileName p) hx
    have h1 := strContains_append_left
      "Circular dependency detected!\nThe snake eats its own tail!\n\nImport chain: "
      _ _ h0
    have h2 := strContains_append_right _ " → " _ h1
    have h3 := strContains_append_right _ (fileName key) _ h2
    have h4 := strContains_append_right _
      "\n\nThis circular import creates an infinite loop." _ h3
    exact h4
  · exact ⟨"Circular dependency detected!\nThe snake eats its own tail!\n\nImport chain: "
        ++ joinSep " → " (st.loadingStack.map fileName) ++ " → ",
      "\n\nThis circular import creates an infinite loop.", rfl⟩

/-- Witness for C7: importing `b` while `/a/b.flow` is on the loading stack
errors with the circular message, which contains `b.flow`. -/
theorem c7_circular_import_witness :
    executeImport c7FS (fun _ => none) (fun _ _ => .error (.runtime "unused" 0 0))
        c7State c7Import
      = .error (.runtime (circularMsg ["/a/b.flow"] "/a/b.flow") 0 0)
    ∧ strContains (circularMsg ["/a/b.flow"] "/a/b.flow") (fileName "/a/b.flow") := by
  have h := c7_circular_import c7FS c7State c7Import "/a/b.flow"
    (fun p hp => by simp [c7Import] at hp) rfl (by simp [c7State])
  exact ⟨h.1 c7FS (fun _ => none) (fun _ _ => .error (.runtime "unused" 0 0)) rfl, h.2.2⟩

/-! ## C8 -/

/-- C8 counterexample: a selective import of a name that exists in the
module's global scope but is **not** marked exported succeeds — the whole
operation returns `Ok` and binds the non-exported value — where the claim
says it must fail with an error. -/
theorem c8_counterexample :
    executeImport c8FS (fun _ => none) (fun _ _ => .error (.runtime "unused" 0 0))
        c8State c8Import
      = .ok ⟨Environment.new.define "secret" (.number 7) false,
          [("/m.flow", secretModuleEnv)], "/d", []⟩
    ∧ (Environment.new.define "secret" (.number 7) false).get "secret"
        = some (.number 7)
    ∧ secretModuleEnv.getAllPublic = [] := by
  refine ⟨rfl, rfl, rfl⟩

/-- C8 (amended): the selective-import loop binds each requested name via
`Environment::get`, which ignores the exported flag entirely: a requested
name is bound (immutably, under its alias) whenever it is present in the
module's environment, exported or not, and the import fails only when the
name is absent. -/
theorem c8_selective_import_ignores_export (moduleEnv : Environment)
    (moduleName name : String) (aliasOpt : Option String) (env : Environment) :
    (∀ v, moduleEnv.get name = some v →
        importSelective moduleEnv moduleName [⟨name, aliasOpt⟩] env
          = .ok (env.define (aliasOpt.getD name) v false))
    ∧ (moduleEnv.get name = none →
        importSelective moduleEnv moduleName [⟨name, aliasOpt⟩] env
          = .error (.runtime ("Module '" ++ moduleName ++ "' does not export '"
              ++ name ++ "'") 0 0)) := by
  constructor
  · intro v hv
    simp [importSelective, hv]
  · intro hn
    simp [importSelective, hn]

/-- Witness for C8's amended theorem on `secretModuleEnv`: the non-exported
`secret` is bound, and an absent name errors. -/
theorem c8_selective_import_ignores_export_witness :
    importSelective secretModuleEnv "m" [⟨"secret", none⟩] Environment.new
      = .ok (Environment.new.define "secret" (.number 7) false)
    ∧ importSelective secretModuleEnv "m" [⟨"ghost", none⟩] Environment.new
      = .error (.runtime ("Module '" ++ "m" ++ "' does not export '" ++ "ghost" ++ "'") 0 0) :=
  ⟨(c8_selective_import_ignores_export secretModuleEnv "m" "secret" none
      Environment.new).1 (.number 7) rfl,
    (c8_selective_import_ignores_export secretModuleEnv "m" "ghost" none
      Environment.new).2 rfl⟩

/-! ## C4 -/

/-- Running the identity callback on an item evaluates to the item and
restores the environment exactly (push scope, bind, run, pop scope). -/
theorem runCallback1_id (ctx : Ctx) (g : Nat) (m1 m2 : String) (item : Value)
    (sc : Scope) (rest : List Scope) :
    runCallback1 ctx (g + 4) m1 m2 idSpellVal item ⟨sc :: rest⟩
      = (⟨sc :: rest⟩, .ok item) := by
  simp [runCallback1, idSpellVal, execFnBody, evalStmt, evalExpr,
    Environment.pushScope, Environment.define, Environment.defineWithExport,
    scopeInsert, Environment.get, envGet, scopeGet, Environment.popScope]

/-- Running the constant-true callback evaluates to `true` and restores the
environment. -/
theorem runCallback1_true (ctx : Ctx) (g : Nat) (m1 m2 : String) (item : Value)
    (sc : Scope) (rest : List Scope) :
    runCallback1 ctx (g + 4) m1 m2 trueSpellVal item ⟨sc :: rest⟩
      = (⟨sc :: rest⟩, .ok (.boolean true)) := by
  simp [runCallback1, trueSpellVal, execFnBody, evalStmt, evalExpr,
    Environment.pushScope, Environment.define, Environment.defineWithExport,
    scopeInsert, Environment.get, envGet, scopeGet, Environment.popScope]

/-- Running the accumulator-keeping callback evaluates to the accumulator
and restores the environment. -/
theorem runCallback2_acc (ctx : Ctx) (g : Nat) (acc item : Value)
    (sc : Scope) (rest : List Scope) :
    runCallback2 ctx (g + 4) accSpellVal acc item ⟨sc :: rest⟩
      = (⟨sc :: rest⟩, .ok acc) := by
  simp [runCallback2, accSpellVal, execFnBody, evalStmt, evalExpr,
    Environment.pushScope, Environment.define, Environment.defineWithExport,
    scopeInsert, Environment.get, envGet, scopeGet, Environment.popScope]

/-- The constellation (map) loop with the identity callback returns the
element list and leaves the environment unchanged, for every receiver. -/
theorem constellationLoop_id (ctx : Ctx) (xs : List Value) :
    ∀ (f : Nat) (sc : Scope) (rest : List Scope),
      constellationLoop ctx (xs.length + f + 5) idSpellVal xs ⟨sc :: rest⟩
        = (⟨sc :: rest⟩, .ok xs) := by
  induction xs with
  | nil => intro f sc rest; rfl
  | cons x xs' ih =>
      intro f sc rest
      have hrc := runCallback1_id ctx (xs'.length + f + 1)
        "Constellation.constellation() Spell must accept at least 1 parameter"
        "Constellation.constellation() requires a Spell as argument" x sc rest
      have hih := ih f sc rest
      have hfuel : (x :: xs').length + f + 5 = (xs'.length + f + 5) + 1 := by
        simp [List.length_cons]
        omega
      rw [hfuel]
      have hg : xs'.length + f + 1 + 4 = xs'.length + f + 5 := by omega
      rw [hg] at hrc
      generalize hFF : xs'.length + f + 5 = F at hrc hih ⊢
      simp [constellationLoop, hrc, hih]

/-- The filter loop with the constant-true callback keeps every element and
leaves the environment unchanged. -/
theorem filterLoop_true (ctx : Ctx) (xs : List Value) :
    ∀ (f : Nat) (sc : Scope) (rest : List Scope),
      filterLoop ctx (xs.length + f + 5) trueSpellVal xs ⟨sc :: rest⟩
        = (⟨sc :: rest⟩, .ok xs) := by
  induction xs with
  | nil => intro f sc rest; rfl
  | cons x xs' ih =>
      intro f sc rest
      have hrc := runCallback1_true ctx (xs'.length + f + 1)
        "Constellation.filter() Spell must accept at least 1 parameter"
        "Constellation.filter() requires a Spell as argument" x sc rest
      have hih := ih f sc rest
      have hfuel : (x :: xs').length + f + 5 = (xs'.length + f + 5) + 1 := by
        simp [List.length_cons]
        omega
      rw [hfuel]
      have hg : xs'.length + f + 1 + 4 = xs'.length + f + 5 := by omega
      rw [hg] at hrc
      generalize hFF : xs'.length + f + 5 = F at hrc hih ⊢
      simp [filterLoop, hrc, hih, Value.isTruthy]

/-- The reduce loop with the accumulator-keeping callback returns the
initial accumulator and leaves the environment unchanged. -/
theorem reduceLoop_acc (ctx : Ctx) (xs : List Value) :
    ∀ (f : Nat) (acc : Value) (sc : Scope) (rest : List Scope),
      reduceLoop ctx (xs.length + f + 5) accSpellVal acc xs ⟨sc :: rest⟩
        = (⟨sc :: rest⟩, .ok acc) := by
  induction xs with
  | nil => intro f acc sc rest; rfl
  | cons x xs' ih =>
      intro f acc sc rest
      have hrc := runCallback2_acc ctx (xs'.length + f + 1) acc x sc rest
      have hih := ih f acc sc rest
      have hfuel : (x :: xs').length + f + 5 = (xs'.length + f + 5) + 1 := by
        simp [List.length_cons]
        omega
      rw [hfuel]
      have hg : xs'.length + f + 1 + 4 = xs'.length + f + 5 := by omega
      rw [hg] at hrc
      generalize hFF : xs'.length + f + 5 = F at hrc hih ⊢
      simp [reduceLoop, hrc, hih]

/-- `f64 as usize` on a non-negative whole number is that number. -/
theorem ratToUsize_natCast (n : Nat) : ratToUsize (n : ℚ) = n := by
  rcases Nat.eq_zero_or_pos n with rfl | hpos
  · simp [ratToUsize]
  · have h1 : ¬((n : ℚ) ≤ 0) := by
      push_neg
      exact_mod_cast hpos
    simp [ratToUsize, h1, Rat.floor, Rat.den_natCast, Rat.num_natCast]

/-- C4: for every receiver array value (bound to `a`, with `b` holding the
argument array for `concat`) and each of the operations push, pop, concat,
reverse, slice, map (`constellation`), filter and reduce, evaluating the
method call leaves the environment — and hence the receiver binding `a` and
the array value it holds — exactly unchanged; only the returned value
reflects the operation (`push` returns the extended copy, `pop` the last
element, `slice`/`concat`/`reverse` fresh arrays, the callback operations
fresh arrays / the accumulator). -/
theorem c4_array_methods_receiver_unchanged (ctx : Ctx) (xs : List Value)
    (env : Environment) (f : Nat) (h : env.get "a" = some (.array xs)) :
    (∀ q : ℚ, evalExpr ctx (f + 4) (.methodCall (.identifier "a") "push" [.number q]) env
        = (env, .ok (.array (xs ++ [.number q]))))
    ∧ (∀ v, xs.getLast? = some v →
        evalExpr ctx (f + 4) (.methodCall (.identifier "a") "pop" []) env = (env, .ok v))
    ∧ (∀ ys, env.get "b" = some (.array ys) →
        evalExpr ctx (f + 4) (.methodCall (.identifier "a") "concat" [.identifier "b"]) env
          = (env, .ok (.array (xs ++ ys))))
    ∧ evalExpr ctx (f + 4) (.methodCall (.identifier "a") "reverse" []) env
        = (env, .ok (.array xs.reverse))
    ∧ (∀ s e : Nat, s ≤ e → e ≤ xs.length →
        evalExpr ctx (f + 4)
            (.methodCall (.identifier "a") "slice" [.number (s : ℚ), .number (e : ℚ)]) env
          = (env, .ok (.array ((xs.drop s).take (e - s)))))
    ∧ evalExpr ctx (xs.length + f + 8)
          (.methodCall (.identifier "a") "constellation" [idSpellExpr]) env
        = (env, .ok (.array xs))
    ∧ evalExpr ctx (xs.length + f + 8)
          (.methodCall (.identifier "a") "filter" [trueSpellExpr]) env
        = (env, .ok (.array xs))
    ∧ (∀ q : ℚ, evalExpr ctx (xs.length + f + 8)
          (.methodCall (.identifier "a") "reduce" [accSpellExpr, .number q]) env
        = (env, .ok (.number q))) := by
  obtain ⟨scopes⟩ := env
  rcases scopes with _ | ⟨sc, rest⟩
  · simp [Environment.get, envGet] at h
  refine ⟨?_, ?_, ?_, ?_, ?_, ?_, ?_, ?_⟩
  · intro q
    simp [evalExpr, evalExprList, arrayMethod, h]
  · intro v hv
    simp [evalExpr, evalExprList, arrayMethod, h, hv]
  · intro ys hb
    simp [evalExpr, evalExprList, arrayMethod, h, hb]
  · simp [evalExpr, evalExprList, arrayMethod, h]
  · intro s e hse hel
    have h1 : ¬(s > xs.length) := by omega
    have h2 : ¬(e > xs.length) := by omega
    have h3 : ¬(s > e) := by omega
    simp [evalExpr, evalExprList, arrayMethod, h, ratToUsize_natCast, h1, h2, h3]
  · have hloop := constellationLoop_id ctx xs (f + 1) sc rest
    rw [show xs.length + (f + 1) + 5 = xs.length + f + 6 from by omega] at hloop
    simp only [idSpellVal] at hloop
    simp [evalExpr, evalExprList, arrayMethod, h, idSpellExpr, hloop]
  · have hloop := filterLoop_true ctx xs (f + 1) sc rest
    rw [show xs.length + (f + 1) + 5 = xs.length + f + 6 from by omega] at hloop
    simp only [trueSpellVal] at hloop
    simp [evalExpr, evalExprList, arrayMethod, h, trueSpellExpr, hloop]
  · intro q
    have hloop := reduceLoop_acc ctx xs (f + 1) (.number q) sc rest
    rw [show xs.length + (f + 1) + 5 = xs.length + f + 6 from by omega] at hloop
    simp only [accSpellVal] at hloop
    simp [evalExpr, evalExprList, arrayMethod, h, accSpellExpr, hloop]

/-- Witness for C4 on `a = [1,2,3]`, `b = [9]`. -/
theorem c4_array_methods_receiver_unchanged_witness :
    evalExpr defCtx 4 (.methodCall (.identifier "a") "push" [.number 4])
        ((Environment.new.define "a" (.array [.number 1, .number 2, .number 3]) true).define
          "b" (.array [.number 9]) true)
      = ((Environment.new.define "a" (.array [.number 1, .number 2, .number 3]) true).define
          "b" (.array [.number 9]) true,
          .ok (.array [.number 1, .number 2, .number 3, .number 4]))
    ∧ evalExpr defCtx 4 (.methodCall (.identifier "a") "pop" [])
        ((Environment.new.define "a" (.array [.number 1, .number 2, .number 3]) true).define
          "b" (.array [.number 9]) true)
      = ((Environment.new.define "a" (.array [.number 1, .number 2, .number 3]) true).define
          "b" (.array [.number 9]) true, .ok (.number 3))
    ∧ evalExpr defCtx 4 (.methodCall (.identifier "a") "concat" [.identifier "b"])
        ((Environment.new.define "a" (.array [.number 1, .number 2, .number 3]) true).define
          "b" (.array [.number 9]) true)
      = ((Environment.new.define "a" (.array [.number 1, .number 2, .number 3]) true).define
          "b" (.array [.number 9]) true,
          .ok (.array [.number 1, .number 2, .number 3, .number 9]))
    ∧ evalExpr defCtx 4
        (.methodCall (.identifier "a") "slice" [.number ((1 : Nat) : ℚ), .number ((3 : Nat) : ℚ)])
        ((Environment.new.define "a" (.array [.number 1, .number 2, .number 3]) true).define
          "b" (.array [.number 9]) true)
      = ((Environment.new.define "a" (.array [.number 1, .number 2, .number 3]) true).define
          "b" (.array [.number 9]) true, .ok (.array [.number 2, .number 3]))
    ∧ evalExpr defCtx 11 (.methodCall (.identifier "a") "constellation" [idSpellExpr])
        ((Environment.new.define "a" (.array [.number 1, .number 2, .number 3]) true).define
          "b" (.array [.number 9]) true)
      = ((Environment.new.define "a" (.array [.number 1, .number 2, .number 3]) true).define
          "b" (.array [.number 9]) true,
          .ok (.array [.number 1, .number 2, .number 3])) := by
  have h := c4_array_methods_receiver_unchanged defCtx [.number 1, .number 2, .number 3]
    ((Environment.new.define "a" (.array [.number 1, .number 2, .number 3]) true).define
      "b" (.array [.number 9]) true) 0 rfl
  exact ⟨h.1 4, h.2.1 (.number 3) rfl, h.2.2.1 [.number 9] rfl,
    h.2.2.2.2.1 1 3 (by decide) (by decide), h.2.2.2.2.2.1⟩
